import Mathlib

/-!
Shallow embedding of `src/diffusion/datasets/image_caption.py`:
the `StreamingImageCaptionDataset` per-sample transform pipeline and the
`build_streaming_image_caption_dataloader` builder.

Modelling choices:
* Probabilities and the values produced by `torch.rand(1)` are rationals;
  a draw is valid when it lies in `[0, 1)`, matching `torch.rand`.
* Randomness is passed explicitly: `draws : Nat → Rat` is the stream of
  `torch.rand(1)` values consumed in program order, and `sel : Nat` stands
  for the index chosen by `random.sample(caption, k=1)` (taken modulo the
  list length), so random caption selection picks `caption[sel % len]`.
* Images are records of width/height/mode; tensors keep only the last two
  shape entries (`shape[-2]`, `shape[-1]`), which is all the code reads.
* The external tokenizers (`AutoTokenizer`, `SDXLTokenizer`), the PIL
  decoder, the crop transforms from `diffusion.datasets.laion.transforms`
  and the default torchvision transform are collaborators outside this
  file's source; they are parameters of the embedding.
-/

namespace ImageCaption

/-- Probabilities and `torch.rand` draws. -/
abbrev Prob := Rat

/-- A PIL image: size plus mode string (`'RGB'`, `'L'`, ...). -/
structure Img where
  w : Nat
  h : Nat
  mode : String
deriving Repr, DecidableEq

/-- The image value flowing out of the optional `transform`: still a PIL
image, a torch tensor (only the last two shape entries matter: `shape[-2]`
is the height, `shape[-1]` the width), or anything else (which the SDXL
branch rejects). -/
inductive PipeImage where
  | pil (i : Img)
  | tensor (h w : Nat)
  | other
deriving Repr, DecidableEq

/-- The raw image field of a record: encoded bytes or an already decoded
PIL image (`__getitem__` accepts both). -/
inductive ImgField where
  | bytes (b : List Nat)
  | decoded (i : Img)
deriving Repr, DecidableEq

/-- The caption field of a record: a single string or a list of candidate
captions. -/
inductive CaptionField where
  | str (s : String)
  | list (l : List String)
deriving Repr, DecidableEq

/-- A raw record delivered by the streaming shard source, already looked up
at `image_key` / `caption_key`. -/
structure Record where
  image : ImgField
  caption : CaptionField
deriving Repr, DecidableEq

/-- The errors this layer can raise. `invalidConfig` models the
`ValueError`s raised at construction / build time, `decodeError` a PIL
decoding failure, `unsupportedImageType` the `ValueError` for a
post-transform image that is neither PIL nor tensor, and
`indexError` / `sampleError` the Python errors from `caption[0]` /
`random.sample(caption, k=1)` on an empty list. -/
inductive Err where
  | decodeError
  | unsupportedImageType
  | invalidConfig (msg : String)
  | indexError
  | sampleError
deriving Repr, DecidableEq

/-- Output of one tokenizer call: `input_ids` and `attention_mask`. -/
structure TokOut where
  input_ids : List Int
  attention_mask : List Nat
deriving Repr, DecidableEq

/-- A single `AutoTokenizer`: its `model_max_length` and its call,
parameterized by the optional `max_length` argument. -/
structure SingleTok where
  model_max_length : Nat
  run : String → Option Nat → TokOut

/-- The `SDXLTokenizer`: one call returns one output per sub-tokenizer. -/
structure DualTok where
  run : String → Option Nat → TokOut × TokOut

/-- The tokenized captions of a sample: one id-sequence, or the two
sub-tokenizer id-sequences stacked along a new leading axis. -/
inductive Toks where
  | single (ids : List Int)
  | stacked (ids0 ids1 : List Int)
deriving Repr, DecidableEq

/-- The produced sample (`out` dict of `__getitem__`). The three
microconditioning fields and `drop_caption_mask` are `Option`s so that
their presence is part of the statement. -/
structure Sample where
  image : PipeImage
  cond_crops_coords_top_left : Option (Nat × Nat)
  cond_original_size : Option (Nat × Nat)
  cond_target_size : Option (Nat × Nat)
  drop_caption_mask : Option Prob
  captions : Toks
  attention_mask : List Nat
deriving Repr, DecidableEq

/-- The dataset state set up by `StreamingImageCaptionDataset.__init__`
(the configuration knobs plus the chosen tokenizer). -/
structure Dataset where
  caption_drop_prob : Prob
  microcond_drop_prob : Prob
  caption_selection : String
  crop : Option (Img → Img × Nat × Nat)
  transform : Option (Img → PipeImage)
  sdxl : Bool
  zero_dropped_captions : Bool
  tokenizer : SingleTok ⊕ DualTok

/-- Python's `str.lower()` on the ASCII configuration strings
(character-wise lowercasing; behaviourally `String.toLower`, stated via
`List.map` so it reduces in the kernel). -/
def lowerStr (s : String) : String := String.mk (s.data.map Char.toLower)

/-- `StreamingImageCaptionDataset.__init__`: lowercases
`caption_selection`, rejects anything but `first` / `random` with a
`ValueError`, stores the knobs, and picks `SDXLTokenizer` when `sdxl` else
`AutoTokenizer`. The external tokenizer constructors are parameters. -/
def datasetInit (tokSingle : SingleTok) (tokDual : DualTok)
    (caption_drop_prob microcond_drop_prob : Prob)
    (caption_selection : String)
    (crop : Option (Img → Img × Nat × Nat))
    (transform : Option (Img → PipeImage))
    (sdxl : Bool) (zero_dropped_captions : Bool) : Except Err Dataset :=
  if lowerStr caption_selection = "first" ∨
      lowerStr caption_selection = "random" then
    .ok { caption_drop_prob := caption_drop_prob
          microcond_drop_prob := microcond_drop_prob
          caption_selection := lowerStr caption_selection
          crop := crop
          transform := transform
          sdxl := sdxl
          zero_dropped_captions := zero_dropped_captions
          tokenizer := if sdxl then .inr tokDual else .inl tokSingle }
  else
    .error (.invalidConfig
      ("Invalid caption selection: " ++ lowerStr caption_selection ++
       ". Must be one of [random, first]"))

/-- `Image.open(BytesIO(...))` when the field is bytes; pass a decoded
image through. The PIL decoder is an external parameter. -/
def decodeImage (decode : List Nat → Option Img) : ImgField → Except Err Img
  | .decoded i => .ok i
  | .bytes b =>
    match decode b with
    | some i => .ok i
    | none => .error .decodeError

/-- `img.convert('RGB')` when the mode is not RGB; size is preserved. -/
def toRGB (i : Img) : Img :=
  if i.mode = "RGB" then i else { i with mode := "RGB" }

/-- The `(width, height)` the SDXL branch reads from the post-transform
image: `shape[-1], shape[-2]` for a tensor, `img.size` for a PIL image. -/
def pipeSize : PipeImage → Option (Nat × Nat)
  | .pil i => some (i.w, i.h)
  | .tensor h w => some (w, h)
  | .other => none

/-- `torch.logical_or(m0, m1).to(m0.dtype)` on the two attention masks:
a position is 1 iff either mask is nonzero there. -/
def logicalOrMask (m0 m1 : List Nat) : List Nat :=
  List.zipWith (fun a b => if a ≠ 0 ∨ b ≠ 0 then 1 else 0) m0 m1

/-- The caption-selection step of `__getitem__` when the caption is not
dropped: a plain string is used as-is; a list gives its first element
under `first`, or the element at the injected random index under
`random` (`random.sample(caption, k=1)[0]`). `caption[0]` and
`random.sample` on an empty list raise, mirrored by the error cases.
(The source's two `isinstance` checks leave a list untouched when the
selection string is neither value; `datasetInit` has already excluded
that, so the embedding does not need a fall-through case.) -/
def selectCaption (selection : String) (sel : Nat) :
    CaptionField → Except Err String
  | .str s => .ok s
  | .list l =>
    if selection = "first" then
      match l with
      | [] => .error .indexError
      | c :: _ => .ok c
    else
      match l with
      | [] => .error .sampleError
      | _ => .ok (l.getD (sel % l.length) "")

/-- The tail of `__getitem__`: call the tokenizer on the chosen caption
with `max_length = None` for SDXL else `model_max_length`; in SDXL mode
stack the two id-sequences and OR the two attention masks, else use the
single output directly. Returns `(captions, attention_mask)`. -/
def tokenizeCaption (tok : SingleTok ⊕ DualTok) (caption : String) :
    Toks × List Nat :=
  match tok with
  | .inl t =>
    let o := t.run caption (some t.model_max_length)
    (.single o.input_ids, o.attention_mask)
  | .inr t =>
    let o := t.run caption none
    (.stacked o.1.input_ids o.2.input_ids,
     logicalOrMask o.1.attention_mask o.2.attention_mask)

/-- The crop step: apply the configured crop and read off the crop
window's `(top, left)`, or `(0, 0)` when no crop is configured. Returns
`(image, top, left)`. -/
def croppedImg (ds : Dataset) (img1 : Img) : Img × Nat × Nat :=
  match ds.crop with
  | some c => c img1
  | none => (img1, 0, 0)

/-- The transform step: apply the configured transform, else the image
stays a PIL bitmap. -/
def transformedImg (ds : Dataset) (img2 : Img) : PipeImage :=
  match ds.transform with
  | some t => t img2
  | none => .pil img2

/-- The SDXL microconditioning block of `__getitem__`: in SDXL mode read
the post-transform size (rejecting a non-PIL, non-tensor value), then
with three separate `torch.rand(1)` draws (`draws 0`, `draws 1`,
`draws 2`) zero out each of crop coords / original size / target size
independently. Outside SDXL mode none of the three fields is set. -/
def microcondStep (ds : Dataset) (draws : Nat → Prob) (orig ctl : Nat × Nat)
    (img3 : PipeImage) :
    Except Err (Option (Nat × Nat) × Option (Nat × Nat) × Option (Nat × Nat)) :=
  if ds.sdxl then
    match pipeSize img3 with
    | none => .error .unsupportedImageType
    | some sz =>
      .ok (some (if draws 0 < ds.microcond_drop_prob then (0, 0) else ctl),
           some (if draws 1 < ds.microcond_drop_prob then (0, 0) else orig),
           some (if draws 2 < ds.microcond_drop_prob then (0, 0) else sz))
  else
    .ok (none, none, none)

/-- The caption block of `__getitem__`: with probability
`caption_drop_prob` (decided by the draw at index `k`, the next unused
`torch.rand(1)` value) the caption becomes the empty string and the mask
is `0.0` when `zero_dropped_captions` else `1.0`; otherwise the source
caption is selected and the mask is `1.0`. Returns `(caption, mask)`. -/
def captionStep (ds : Dataset) (rec : Record) (draws : Nat → Prob)
    (sel k : Nat) : Except Err (String × Prob) :=
  if draws k < ds.caption_drop_prob then
    .ok ("", if ds.zero_dropped_captions then 0 else 1)
  else
    match selectCaption ds.caption_selection sel rec.caption with
    | .error e => .error e
    | .ok c => .ok (c, 1)

/-- `StreamingImageCaptionDataset.__getitem__`. `draws` is the stream of
`torch.rand(1)` values in consumption order (three microconditioning
draws when `sdxl`, then the caption-drop draw — hence index
`if sdxl then 3 else 0` for the latter); `sel` injects the
`random.sample` choice for random caption selection. -/
def getitem (ds : Dataset) (decode : List Nat → Option Img) (rec : Record)
    (draws : Nat → Prob) (sel : Nat) : Except Err Sample :=
  match decodeImage decode rec.image with
  | .error e => .error e
  | .ok img0 =>
    match microcondStep ds draws ((toRGB img0).w, (toRGB img0).h)
        (croppedImg ds (toRGB img0)).2
        (transformedImg ds (croppedImg ds (toRGB img0)).1) with
    | .error e => .error e
    | .ok micro =>
      match captionStep ds rec draws sel (if ds.sdxl then 3 else 0) with
      | .error e => .error e
      | .ok cm =>
        .ok { image := transformedImg ds (croppedImg ds (toRGB img0)).1
              cond_crops_coords_top_left := micro.1
              cond_original_size := micro.2.1
              cond_target_size := micro.2.2
              drop_caption_mask := some cm.2
              captions := (tokenizeCaption ds.tokenizer cm.1).1
              attention_mask := (tokenizeCaption ds.tokenizer cm.1).2 }

/-- A `remote` / `local` argument of the builder: a single string or a
list of strings (the annotated `Union[str, List]`). -/
inductive Loc where
  | str (s : String)
  | seq (l : List String)
deriving Repr, DecidableEq

/-- In Python a `str` is itself a `Sequence`; iterating it yields its
characters as one-character strings. `elems` is the element sequence
`zip` would traverse. -/
def Loc.elems : Loc → List String
  | .str s => s.data.map (fun c => String.mk [c])
  | .seq l => l

/-- `isinstance(x, str)`. -/
def Loc.isStr : Loc → Bool
  | .str _ => true
  | .seq _ => false

/-- The external collaborators the builder wires together: the tokenizer
constructors, the three crop transforms from
`diffusion.datasets.laion.transforms`, and the default
`ToTensor o Normalize` composition. -/
structure ExternalLib where
  mkSingle : String → SingleTok
  mkDual : String → DualTok
  largestCenterSquare : Nat → Img → Img × Nat × Nat
  randomCropSquare : Nat → Img → Img × Nat × Nat
  randomCropAspectRatio : Img → Img × Nat × Nat
  defaultTransform : Img → PipeImage

/-- The builder's result: the `(remote, local)` stream pairs, the
constructed dataset, and the batch size handed to the `DataLoader`. -/
structure LoaderCfg where
  streams : List (String × String)
  dataset : Dataset
  batch_size : Nat

/-- The builder's crop-type check: `None` passes; a string is lowercased
and must be one of `square` / `random` / `aspect_ratio`, else a
`ValueError` is raised (this one really is raised in the source). -/
def checkCropType : Option String → Except Err (Option String)
  | none => .ok none
  | some ct0 =>
    if lowerStr ct0 = "square" ∨ lowerStr ct0 = "random" ∨
        lowerStr ct0 = "aspect_ratio" then
      .ok (some (lowerStr ct0))
    else
      .error (.invalidConfig
        ("Invalid crop_type: " ++ lowerStr ct0 ++
         ". Must be [\x22square\x22, \x22random\x22, \x22aspect_ratio\x22, None]"))

/-- The builder's remote/local normalization, faithful to the source: two
strings are wrapped into singleton lists; in every other case the
length-mismatch / type-mismatch `ValueError`s are constructed WITHOUT
`raise`, so execution falls through and `zip` silently truncates to the
shorter argument (and, a Python `str` being a `Sequence`, a string mixed
with a list is zipped character by character). Hence no error case. -/
def normalizeRemoteLocal (remote local_ : Loc) : List (String × String) :=
  if remote.isStr && local_.isStr then
    -- `remote, local = [remote], [local]`
    (match remote with | .str r => [r] | .seq l => l).zip
      (match local_ with | .str r => [r] | .seq l => l)
  else
    remote.elems.zip local_.elems

/-- The builder's crop selection from the validated crop type. -/
def selectCrop (ext : ExternalLib) (ct : Option String) (resize_size : Nat) :
    Option (Img → Img × Nat × Nat) :=
  if ct = some "square" then some (ext.largestCenterSquare resize_size)
  else if ct = some "random" then some (ext.randomCropSquare resize_size)
  else if ct = some "aspect_ratio" then some ext.randomCropAspectRatio
  else none

/-- The builder's default transform composition when none is supplied. -/
def defaultedTransform (ext : ExternalLib) :
    Option (Img → PipeImage) → Option (Img → PipeImage)
  | some t => some t
  | none => some ext.defaultTransform

/-- `build_streaming_image_caption_dataloader`: crop-type check,
remote/local normalization, SDXL inference by string equality of the
tokenizer identifier, crop selection, transform defaulting, and dataset
construction. -/
def build_streaming_image_caption_dataloader (ext : ExternalLib)
    (remote local_ : Loc) (batch_size : Nat)
    (tokenizer_name_or_path : String)
    (caption_drop_prob microcond_drop_prob : Prob)
    (resize_size : Nat)
    (caption_selection : String)
    (transform : Option (Img → PipeImage))
    (crop_type : Option String)
    (zero_dropped_captions : Bool) : Except Err LoaderCfg :=
  match checkCropType crop_type with
  | .error e => .error e
  | .ok ct =>
    match datasetInit (ext.mkSingle tokenizer_name_or_path)
        (ext.mkDual tokenizer_name_or_path)
        caption_drop_prob microcond_drop_prob caption_selection
        (selectCrop ext ct resize_size)
        (defaultedTransform ext transform)
        (tokenizer_name_or_path == "stabilityai/stable-diffusion-xl-base-1.0")
        zero_dropped_captions with
    | .error e => .error e
    | .ok ds =>
      .ok { streams := normalizeRemoteLocal remote local_
            dataset := ds
            batch_size := batch_size }

/-- Whether an `Except` computation succeeded. -/
def isOkE {α : Type} : Except Err α → Bool
  | .ok _ => true
  | .error _ => false

/-- The stream pairs of a successful build (`[]` on error). -/
def streamsOfE : Except Err LoaderCfg → List (String × String)
  | .ok c => c.streams
  | .error _ => []

/-! ### Concrete external collaborators used to instantiate theorems -/

/-- A concrete single tokenizer: ids are the character codes, mask all 1. -/
def testSingleTok : SingleTok :=
  { model_max_length := 4
    run := fun s _ =>
      { input_ids := s.data.map (fun c => (c.toNat : Int))
        attention_mask := s.data.map (fun _ => 1) } }

/-- A concrete dual tokenizer with two distinct sub-tokenizers. -/
def testDualTok : DualTok :=
  { run := fun s _ =>
      ({ input_ids := s.data.map (fun c => (c.toNat : Int))
         attention_mask := s.data.map (fun _ => 1) ++ [0, 0] },
       { input_ids := s.data.map (fun c => (c.toNat : Int) + 1)
         attention_mask := s.data.map (fun _ => 1) ++ [1, 0] }) }

/-- A concrete decoder: a two-element byte list is read as `[w, h]`. -/
def testDecode : List Nat → Option Img :=
  fun b =>
    match b with
    | [w, h] => some { w := w, h := h, mode := "L" }
    | _ => none

/-- A concrete bundle of external collaborators for the builder. -/
def testExt : ExternalLib :=
  { mkSingle := fun _ => testSingleTok
    mkDual := fun _ => testDualTok
    largestCenterSquare := fun n i => ({ i with w := n, h := n }, 1, 2)
    randomCropSquare := fun n i => ({ i with w := n, h := n }, 3, 4)
    randomCropAspectRatio := fun i => (i, 5, 6)
    defaultTransform := fun i => .tensor i.h i.w }

/-- A base single-tokenizer dataset used to instantiate theorems. -/
def wDsBase : Dataset :=
  { caption_drop_prob := 0
    microcond_drop_prob := 0
    caption_selection := "first"
    crop := none
    transform := none
    sdxl := false
    zero_dropped_captions := false
    tokenizer := .inl testSingleTok }

/-- Caption-drop probability 1.0 with zeroed dropped captions. -/
def wDsDrop : Dataset :=
  { wDsBase with caption_drop_prob := 1, zero_dropped_captions := true }

/-- Random caption selection, drop probability 0.0. -/
def wDsRandom : Dataset := { wDsBase with caption_selection := "random" }

/-- SDXL-mode dataset whose crop reports offsets `(5, 7)`. -/
def wDsSdxl : Dataset :=
  { caption_drop_prob := 0
    microcond_drop_prob := 0
    caption_selection := "first"
    crop := some (fun i => (i, 5, 7))
    transform := none
    sdxl := true
    zero_dropped_captions := false
    tokenizer := .inr testDualTok }

/-- SDXL-mode dataset with microconditioning-drop probability 1.0. -/
def wDsSdxlDrop : Dataset := { wDsSdxl with microcond_drop_prob := 1 }

/-- SDXL-mode dataset with no crop configured. -/
def wDsSdxlNoCrop : Dataset := { wDsSdxl with crop := none }

/-- SDXL-mode dataset with microconditioning-drop probability 1/2. -/
def wDsSdxlHalf : Dataset := { wDsSdxl with microcond_drop_prob := mkRat 1 2 }

/-- A record with a decoded 8x6 RGB image and a single-string caption. -/
def wRec : Record :=
  { image := .decoded { w := 8, h := 6, mode := "RGB" }, caption := .str "ab" }

/-- A record with a non-RGB image and a two-candidate caption list. -/
def wRecList : Record :=
  { image := .decoded { w := 8, h := 6, mode := "L" }
    caption := .list ["a dog", "a puppy"] }

/-- The all-zero draw stream (each `torch.rand(1)` value is 0). -/
def wDraws0 : Nat → Prob := fun _ => 0

/-- Draw stream for the microconditioning-drop patterns: draw `i` (for
`i < 3`) is 0 (which is `< 1/2`, so vector `i` is dropped) when the
corresponding flag is true, else `1/2` (kept). -/
def c8draws (b0 b1 b2 : Bool) : Nat → Prob :=
  fun i =>
    if i = 0 then (if b0 then 0 else mkRat 1 2)
    else if i = 1 then (if b1 then 0 else mkRat 1 2)
    else if i = 2 then (if b2 then 0 else mkRat 1 2)
    else 0

/-- Expected sample of `getitem wDsSdxlHalf testDecode wRec (c8draws b0 b1 b2) 0`. -/
def c8Out (b0 b1 b2 : Bool) : Sample :=
  { image := .pil { w := 8, h := 6, mode := "RGB" }
    cond_crops_coords_top_left := some (if b0 then (0, 0) else (5, 7))
    cond_original_size := some (if b1 then (0, 0) else (8, 6))
    cond_target_size := some (if b2 then (0, 0) else (8, 6))
    drop_caption_mask := some 1
    captions := .stacked [97, 98] [98, 99]
    attention_mask := [1, 1, 1, 0] }

/-- Expected sample of `getitem wDsDrop testDecode wRec wDraws0 0`. -/
def wOutDrop : Sample :=
  { image := .pil { w := 8, h := 6, mode := "RGB" }
    cond_crops_coords_top_left := none
    cond_original_size := none
    cond_target_size := none
    drop_caption_mask := some 0
    captions := .single []
    attention_mask := [] }

/-- Expected sample of `getitem wDsBase testDecode wRec wDraws0 0`. -/
def wOutBase : Sample :=
  { image := .pil { w := 8, h := 6, mode := "RGB" }
    cond_crops_coords_top_left := none
    cond_original_size := none
    cond_target_size := none
    drop_caption_mask := some 1
    captions := .single [97, 98]
    attention_mask := [1, 1] }

/-- Expected sample of `getitem wDsRandom testDecode wRecList wDraws0 3`. -/
def wOutRand : Sample :=
  { image := .pil { w := 8, h := 6, mode := "RGB" }
    cond_crops_coords_top_left := none
    cond_original_size := none
    cond_target_size := none
    drop_caption_mask := some 1
    captions := .single [97, 32, 112, 117, 112, 112, 121]
    attention_mask := [1, 1, 1, 1, 1, 1, 1] }

/-- Expected sample of `getitem wDsSdxlDrop testDecode wRec wDraws0 0`. -/
def wOutSdxlDrop : Sample :=
  { image := .pil { w := 8, h := 6, mode := "RGB" }
    cond_crops_coords_top_left := some (0, 0)
    cond_original_size := some (0, 0)
    cond_target_size := some (0, 0)
    drop_caption_mask := some 1
    captions := .stacked [97, 98] [98, 99]
    attention_mask := [1, 1, 1, 0] }

/-- Expected sample of `getitem wDsSdxl testDecode wRec wDraws0 0`. -/
def wOutSdxl : Sample :=
  { image := .pil { w := 8, h := 6, mode := "RGB" }
    cond_crops_coords_top_left := some (5, 7)
    cond_original_size := some (8, 6)
    cond_target_size := some (8, 6)
    drop_caption_mask := some 1
    captions := .stacked [97, 98] [98, 99]
    attention_mask := [1, 1, 1, 0] }

/-- Expected sample of `getitem wDsSdxlNoCrop testDecode wRec wDraws0 0`. -/
def wOutSdxlNoCrop : Sample :=
  { image := .pil { w := 8, h := 6, mode := "RGB" }
    cond_crops_coords_top_left := some (0, 0)
    cond_original_size := some (8, 6)
    cond_target_size := some (8, 6)
    drop_caption_mask := some 1
    captions := .stacked [97, 98] [98, 99]
    attention_mask := [1, 1, 1, 0] }

/-- Expected builder output when the SDXL tokenizer identifier is passed. -/
def wCfg9 : LoaderCfg :=
  { streams := [("r", "l")]
    dataset :=
      { caption_drop_prob := 0
        microcond_drop_prob := 0
        caption_selection := "first"
        crop := some (testExt.largestCenterSquare 256)
        transform := some testExt.defaultTransform
        sdxl := true
        zero_dropped_captions := true
        tokenizer := .inr (testExt.mkDual "stabilityai/stable-diffusion-xl-base-1.0") }
    batch_size := 4 }

/-! ### Shared lemmas -/

/-- `convert('RGB')` preserves the image size. -/
theorem toRGB_size (i : Img) : (toRGB i).w = i.w ∧ (toRGB i).h = i.h := by
  unfold toRGB; split <;> exact ⟨rfl, rfl⟩

/-- Elimination principle for a successful `getitem`: recover the decoded
image and the results of each stage. -/
theorem getitem_ok {ds : Dataset} {decode : List Nat → Option Img}
    {rec : Record} {draws : Nat → Prob} {sel : Nat} {out : Sample}
    (h : getitem ds decode rec draws sel = .ok out) :
    ∃ img0 micro cm,
      decodeImage decode rec.image = .ok img0 ∧
      microcondStep ds draws ((toRGB img0).w, (toRGB img0).h)
        (croppedImg ds (toRGB img0)).2
        (transformedImg ds (croppedImg ds (toRGB img0)).1) = .ok micro ∧
      captionStep ds rec draws sel (if ds.sdxl then 3 else 0) = .ok cm ∧
      out = { image := transformedImg ds (croppedImg ds (toRGB img0)).1
              cond_crops_coords_top_left := micro.1
              cond_original_size := micro.2.1
              cond_target_size := micro.2.2
              drop_caption_mask := some cm.2
              captions := (tokenizeCaption ds.tokenizer cm.1).1
              attention_mask := (tokenizeCaption ds.tokenizer cm.1).2 } := by
  unfold getitem at h
  split at h
  · exact absurd h (by simp)
  · rename_i img0 hdec
    split at h
    · exact absurd h (by simp)
    · rename_i micro hmic
      split at h
      · exact absurd h (by simp)
      · rename_i cm hcap
        exact ⟨img0, micro, cm, hdec, hmic, hcap, (Except.ok.inj h).symm⟩

/-- A successful `captionStep` yields a mask that is exactly 0 or 1. -/
theorem captionStep_mask {ds : Dataset} {rec : Record} {draws : Nat → Prob}
    {sel k : Nat} {cm : String × Prob}
    (h : captionStep ds rec draws sel k = .ok cm) :
    cm.2 = 0 ∨ cm.2 = 1 := by
  unfold captionStep at h
  split at h
  · obtain rfl := Except.ok.inj h
    by_cases hz : ds.zero_dropped_captions <;> simp [hz]
  · split at h
    · exact absurd h (by simp)
    · obtain rfl := Except.ok.inj h
      right; rfl

/-- `selectCaption` on a nonempty list under `first` picks the head. -/
theorem selectCaption_first (sel : Nat) (a : String) (as : List String) :
    selectCaption "first" sel (.list (a :: as)) = .ok a := rfl

/-- `selectCaption` on a nonempty list under `random` picks the element
at the injected index modulo the length. -/
theorem selectCaption_random (sel : Nat) (a : String) (as : List String) :
    selectCaption "random" sel (.list (a :: as)) =
      .ok ((a :: as).getD (sel % (a :: as).length) "") := rfl

/-- Positionwise content of `logicalOrMask`. -/
theorem logicalOrMask_getD (m0 m1 : List Nat) (i : Nat)
    (h0 : i < m0.length) (h1 : i < m1.length) :
    (logicalOrMask m0 m1).getD i 0 =
      if m0.getD i 0 ≠ 0 ∨ m1.getD i 0 ≠ 0 then 1 else 0 := by
  induction m0 generalizing m1 i with
  | nil => exact absurd h0 (by simp)
  | cons a as ih =>
    cases m1 with
    | nil => exact absurd h1 (by simp)
    | cons b bs =>
      cases i with
      | zero => rfl
      | succ n =>
        simpa [logicalOrMask, List.getD] using
          ih bs n (Nat.lt_of_succ_lt_succ h0) (Nat.lt_of_succ_lt_succ h1)

/-! ### Claims -/

/-- C1: the claim says the builder fails with `MismatchedLengthError` on
sequences of differing lengths and with `InvalidArgumentTypeError` on
mixed single-location/sequence arguments, returning no batch producer. In
the source both `ValueError(...)` expressions lack `raise`, so the build
succeeds in both situations: with `remote` of length 2 and `local` of
length 3 it returns a producer over the 2 zip-truncated pairs, and with a
string `remote` and a list `local` it zips the string's characters
against the list. -/
theorem C1_mismatch_not_raised :
    (isOkE (build_streaming_image_caption_dataloader testExt
        (Loc.seq ["r1", "r2"]) (Loc.seq ["l1", "l2", "l3"]) 8
        "stabilityai/stable-diffusion-2-base" 0 0 256 "first" none
        (some "square") true) = true ∧
      streamsOfE (build_streaming_image_caption_dataloader testExt
        (Loc.seq ["r1", "r2"]) (Loc.seq ["l1", "l2", "l3"]) 8
        "stabilityai/stable-diffusion-2-base" 0 0 256 "first" none
        (some "square") true) = [("r1", "l1"), ("r2", "l2")]) ∧
    (isOkE (build_streaming_image_caption_dataloader testExt
        (Loc.str "ab") (Loc.seq ["x", "y", "z"]) 8
        "stabilityai/stable-diffusion-2-base" 0 0 256 "first" none
        (some "square") true) = true ∧
      streamsOfE (build_streaming_image_caption_dataloader testExt
        (Loc.str "ab") (Loc.seq ["x", "y", "z"]) 8
        "stabilityai/stable-diffusion-2-base" 0 0 256 "first" none
        (some "square") true) = [("a", "x"), ("b", "y")]) := by
  refine ⟨⟨?_, ?_⟩, ?_, ?_⟩ <;> decide

/-- C2 counterexample: the claim says construction fails for any string
other than `'first'` / `'random'`, but the source lowercases the value
first, so `'First'` — a different string — is accepted. -/
theorem C2_counterexample :
    isOkE (datasetInit testSingleTok testDualTok 0 0 "First" none none
      false false) = true ∧
    "First" ≠ "first" ∧ "First" ≠ "random" := by
  refine ⟨?_, ?_, ?_⟩ <;> decide

/-- C2 (amended): construction succeeds iff the lowercased
caption-selection string is `'first'` or `'random'`, and otherwise fails
with the `ValueError` (`InvalidConfigError`) carrying the source's
message. -/
theorem C2_selection_validation (tokS : SingleTok) (tokD : DualTok)
    (p q : Prob) (s : String) (crop : Option (Img → Img × Nat × Nat))
    (tf : Option (Img → PipeImage)) (sdxl z : Bool) :
    (isOkE (datasetInit tokS tokD p q s crop tf sdxl z) = true ↔
      (lowerStr s = "first" ∨ lowerStr s = "random")) ∧
    (¬(lowerStr s = "first" ∨ lowerStr s = "random") →
      datasetInit tokS tokD p q s crop tf sdxl z =
        .error (.invalidConfig ("Invalid caption selection: " ++ lowerStr s ++
          ". Must be one of [random, first]"))) := by
  unfold datasetInit
  by_cases h : lowerStr s = "first" ∨ lowerStr s = "random" <;>
    simp [h, isOkE]

/-- C2 witness: instantiates the amended validation theorem at the
rejected string `'banana'`. -/
theorem C2_selection_validation_witness :
    (isOkE (datasetInit testSingleTok testDualTok 0 0 "banana" none none
        false false) = true ↔
      (lowerStr "banana" = "first" ∨ lowerStr "banana" = "random")) ∧
    (¬(lowerStr "banana" = "first" ∨ lowerStr "banana" = "random") →
      datasetInit testSingleTok testDualTok 0 0 "banana" none none
          false false =
        .error (.invalidConfig ("Invalid caption selection: " ++
          lowerStr "banana" ++ ". Must be one of [random, first]"))) :=
  C2_selection_validation testSingleTok testDualTok 0 0 "banana" none none
    false false

/-- C3: when the caption-drop probability is 1.0, every produced sample's
captions and attention mask are exactly those obtained by tokenizing the
empty string, and `drop_caption_mask` is 0.0 when `zero_dropped_captions`
is enabled, else 1.0 (each `torch.rand(1)` draw lies in `[0, 1)`, hence
is `< 1.0`). -/
theorem C3_caption_drop_prob_one (ds : Dataset)
    (decode : List Nat → Option Img) (rec : Record) (draws : Nat → Prob)
    (sel : Nat) (out : Sample)
    (hp : ds.caption_drop_prob = 1)
    (hd : ∀ i, 0 ≤ draws i ∧ draws i < 1)
    (h : getitem ds decode rec draws sel = .ok out) :
    out.captions = (tokenizeCaption ds.tokenizer "").1 ∧
    out.attention_mask = (tokenizeCaption ds.tokenizer "").2 ∧
    out.drop_caption_mask =
      some (if ds.zero_dropped_captions then 0 else 1) := by
  obtain ⟨img0, micro, cm, -, -, hcap, rfl⟩ := getitem_ok h
  unfold captionStep at hcap
  rw [hp, if_pos (hd _).2] at hcap
  obtain rfl := Except.ok.inj hcap
  exact ⟨rfl, rfl, rfl⟩

/-- C3 witness: concrete run with drop probability 1.0 and
`zero_dropped_captions = true`. -/
theorem C3_caption_drop_prob_one_witness :
    getitem wDsDrop testDecode wRec wDraws0 0 = .ok wOutDrop ∧
    (wOutDrop.captions = (tokenizeCaption wDsDrop.tokenizer "").1 ∧
     wOutDrop.attention_mask = (tokenizeCaption wDsDrop.tokenizer "").2 ∧
     wOutDrop.drop_caption_mask =
       some (if wDsDrop.zero_dropped_captions then 0 else 1)) :=
  ⟨rfl, C3_caption_drop_prob_one wDsDrop testDecode wRec wDraws0 0 wOutDrop
    rfl (fun _ => ⟨le_refl 0, show (0 : Prob) < 1 by decide⟩) rfl⟩

/-- C4: when the caption-drop probability is 0.0 (each draw being `≥ 0`,
the drop branch is never taken), `drop_caption_mask` is 1.0 and the
tokenized caption is the selected source caption: the string itself for a
single-string field, the element at index 0 under `first`, the element
at the injected random index (a member of the list) under `random`. -/
theorem C4_caption_drop_prob_zero (ds : Dataset)
    (decode : List Nat → Option Img) (rec : Record) (draws : Nat → Prob)
    (sel : Nat) (out : Sample)
    (hp : ds.caption_drop_prob = 0)
    (hd : ∀ i, 0 ≤ draws i ∧ draws i < 1)
    (h : getitem ds decode rec draws sel = .ok out) :
    out.drop_caption_mask = some 1 ∧
    ∃ c, selectCaption ds.caption_selection sel rec.caption = .ok c ∧
      out.captions = (tokenizeCaption ds.tokenizer c).1 ∧
      out.attention_mask = (tokenizeCaption ds.tokenizer c).2 ∧
      (∀ s, rec.caption = .str s → c = s) ∧
      (∀ l, rec.caption = .list l →
        (ds.caption_selection = "first" → c = l.getD 0 "") ∧
        (ds.caption_selection = "random" →
          c = l.getD (sel % l.length) "" ∧ c ∈ l)) := by
  obtain ⟨img0, micro, cm, -, -, hcap, rfl⟩ := getitem_ok h
  unfold captionStep at hcap
  rw [hp, if_neg (not_lt.mpr (hd _).1)] at hcap
  split at hcap
  · exact absurd hcap (by simp)
  · rename_i c hsel
    obtain rfl := Except.ok.inj hcap
    refine ⟨rfl, c, hsel, rfl, rfl, ?_, ?_⟩
    · intro s hs
      rw [hs] at hsel
      exact (Except.ok.inj hsel).symm
    · intro l hl
      rw [hl] at hsel
      constructor
      · intro hf
        rw [hf] at hsel
        cases l with
        | nil => exact absurd hsel (by simp [selectCaption])
        | cons a as =>
          rw [selectCaption_first] at hsel
          exact (Except.ok.inj hsel).symm
      · intro hr
        rw [hr] at hsel
        cases l with
        | nil => exact absurd hsel (by simp [selectCaption])
        | cons a as =>
          rw [selectCaption_random] at hsel
          obtain rfl := Except.ok.inj hsel
          have hlt : sel % (a :: as).length < (a :: as).length :=
            Nat.mod_lt _ (by simp)
          constructor
          · rfl
          · rw [List.getD_eq_getElem _ _ hlt]
            exact List.getElem_mem hlt

/-- C4 witness: concrete run with drop probability 0.0, a two-candidate
caption list and `random` selection picking index `3 % 2 = 1`. -/
theorem C4_caption_drop_prob_zero_witness :
    getitem wDsRandom testDecode wRecList wDraws0 3 = .ok wOutRand ∧
    (wOutRand.drop_caption_mask = some 1 ∧
     ∃ c, selectCaption wDsRandom.caption_selection 3 wRecList.caption = .ok c ∧
       wOutRand.captions = (tokenizeCaption wDsRandom.tokenizer c).1 ∧
       wOutRand.attention_mask = (tokenizeCaption wDsRandom.tokenizer c).2 ∧
       (∀ s, wRecList.caption = .str s → c = s) ∧
       (∀ l, wRecList.caption = .list l →
         (wDsRandom.caption_selection = "first" → c = l.getD 0 "") ∧
         (wDsRandom.caption_selection = "random" →
           c = l.getD (3 % l.length) "" ∧ c ∈ l))) :=
  ⟨rfl, C4_caption_drop_prob_zero wDsRandom testDecode wRecList wDraws0 3
    wOutRand rfl (fun _ => ⟨le_refl 0, show (0 : Prob) < 1 by decide⟩) rfl⟩

/-- C5: in SDXL mode with microconditioning-drop probability 1.0 (each
draw lying in `[0, 1)`), all three microconditioning vectors of every
produced sample are exactly the zero vector. -/
theorem C5_microcond_drop_prob_one (ds : Dataset)
    (decode : List Nat → Option Img) (rec : Record) (draws : Nat → Prob)
    (sel : Nat) (out : Sample)
    (hs : ds.sdxl = true)
    (hp : ds.microcond_drop_prob = 1)
    (hd : ∀ i, 0 ≤ draws i ∧ draws i < 1)
    (h : getitem ds decode rec draws sel = .ok out) :
    out.cond_crops_coords_top_left = some (0, 0) ∧
    out.cond_original_size = some (0, 0) ∧
    out.cond_target_size = some (0, 0) := by
  obtain ⟨img0, micro, cm, -, hmic, -, rfl⟩ := getitem_ok h
  unfold microcondStep at hmic
  rw [hs] at hmic
  rw [if_pos rfl] at hmic
  split at hmic
  · exact absurd hmic (by simp)
  · rw [hp, if_pos (hd 0).2, if_pos (hd 1).2, if_pos (hd 2).2] at hmic
    obtain rfl := Except.ok.inj hmic
    exact ⟨rfl, rfl, rfl⟩

/-- C5 witness: concrete SDXL run with microconditioning-drop
probability 1.0. -/
theorem C5_microcond_drop_prob_one_witness :
    getitem wDsSdxlDrop testDecode wRec wDraws0 0 = .ok wOutSdxlDrop ∧
    (wOutSdxlDrop.cond_crops_coords_top_left = some (0, 0) ∧
     wOutSdxlDrop.cond_original_size = some (0, 0) ∧
     wOutSdxlDrop.cond_target_size = some (0, 0)) :=
  ⟨rfl, C5_microcond_drop_prob_one wDsSdxlDrop testDecode wRec wDraws0 0
    wOutSdxlDrop rfl rfl (fun _ => ⟨le_refl 0, show (0 : Prob) < 1 by decide⟩) rfl⟩

/-- C6: in dual-tokenizer (SDXL) mode every produced sample stacks the
two sub-tokenizer id-sequences along a new leading axis, and its
attention mask is the positionwise logical OR of the two sub-tokenizer
masks (1 where either mask is nonzero, 0 elsewhere). -/
theorem C6_dual_tokenizer_or_mask (ds : Dataset)
    (decode : List Nat → Option Img) (rec : Record) (draws : Nat → Prob)
    (sel : Nat) (out : Sample) (dt : DualTok)
    (ht : ds.tokenizer = .inr dt)
    (h : getitem ds decode rec draws sel = .ok out) :
    ∃ c, out.captions = .stacked (dt.run c none).1.input_ids
        (dt.run c none).2.input_ids ∧
      out.attention_mask = logicalOrMask (dt.run c none).1.attention_mask
        (dt.run c none).2.attention_mask ∧
      ∀ i, i < (dt.run c none).1.attention_mask.length →
        i < (dt.run c none).2.attention_mask.length →
        out.attention_mask.getD i 0 =
          if (dt.run c none).1.attention_mask.getD i 0 ≠ 0 ∨
              (dt.run c none).2.attention_mask.getD i 0 ≠ 0 then 1
          else 0 := by
  obtain ⟨img0, micro, cm, -, -, -, rfl⟩ := getitem_ok h
  refine ⟨cm.1, ?_, ?_, ?_⟩
  · show (tokenizeCaption ds.tokenizer cm.1).1 = _
    rw [ht]; rfl
  · show (tokenizeCaption ds.tokenizer cm.1).2 = _
    rw [ht]; rfl
  · intro i h0 h1
    show ((tokenizeCaption ds.tokenizer cm.1).2).getD i 0 = _
    rw [ht]
    exact logicalOrMask_getD _ _ i h0 h1

/-- C6 witness: concrete SDXL run; the two masks `[1,1,0,0]` and
`[1,1,1,0]` combine to `[1,1,1,0]`. -/
theorem C6_dual_tokenizer_or_mask_witness :
    getitem wDsSdxl testDecode wRec wDraws0 0 = .ok wOutSdxl ∧
    ∃ c, wOutSdxl.captions = .stacked (testDualTok.run c none).1.input_ids
        (testDualTok.run c none).2.input_ids ∧
      wOutSdxl.attention_mask =
        logicalOrMask (testDualTok.run c none).1.attention_mask
          (testDualTok.run c none).2.attention_mask ∧
      ∀ i, i < (testDualTok.run c none).1.attention_mask.length →
        i < (testDualTok.run c none).2.attention_mask.length →
        wOutSdxl.attention_mask.getD i 0 =
          if (testDualTok.run c none).1.attention_mask.getD i 0 ≠ 0 ∨
              (testDualTok.run c none).2.attention_mask.getD i 0 ≠ 0 then 1
          else 0 :=
  ⟨rfl, C6_dual_tokenizer_or_mask wDsSdxl testDecode wRec wDraws0 0 wOutSdxl
    testDualTok rfl rfl⟩

/-- C7: in SDXL mode with no crop configured and microconditioning drop
disabled (probability 0.0, each draw being `≥ 0`), the produced sample
records the decoded image's size `(W, H)` in `cond_original_size`, the
offsets `(0, 0)` in `cond_crops_coords_top_left`, and the post-transform
image size in `cond_target_size`. -/
theorem C7_no_crop_roundtrip (ds : Dataset)
    (decode : List Nat → Option Img) (rec : Record) (draws : Nat → Prob)
    (sel : Nat) (out : Sample) (img0 : Img)
    (hs : ds.sdxl = true)
    (hc : ds.crop = none)
    (hp : ds.microcond_drop_prob = 0)
    (hd : ∀ i, 0 ≤ draws i ∧ draws i < 1)
    (hdec : decodeImage decode rec.image = .ok img0)
    (h : getitem ds decode rec draws sel = .ok out) :
    out.cond_original_size = some (img0.w, img0.h) ∧
    out.cond_crops_coords_top_left = some (0, 0) ∧
    out.cond_target_size = pipeSize out.image := by
  obtain ⟨img1, micro, cm, hdec1, hmic, -, rfl⟩ := getitem_ok h
  rw [hdec] at hdec1
  obtain rfl := Except.ok.inj hdec1
  unfold microcondStep at hmic
  rw [hs] at hmic
  rw [if_pos rfl] at hmic
  split at hmic
  · exact absurd hmic (by simp)
  · rename_i sz hsz
    rw [hp, if_neg (not_lt.mpr (hd 0).1), if_neg (not_lt.mpr (hd 1).1),
      if_neg (not_lt.mpr (hd 2).1)] at hmic
    obtain rfl := Except.ok.inj hmic
    have hcrop : croppedImg ds (toRGB img0) = (toRGB img0, 0, 0) := by
      unfold croppedImg; rw [hc]
    refine ⟨?_, ?_, ?_⟩
    · show some ((toRGB img0).w, (toRGB img0).h) = some (img0.w, img0.h)
      rw [(toRGB_size img0).1, (toRGB_size img0).2]
    · show some (croppedImg ds (toRGB img0)).2 = some (0, 0)
      rw [hcrop]
    · show some sz = pipeSize (transformedImg ds (croppedImg ds (toRGB img0)).1)
      exact hsz.symm

/-- C7 witness: SDXL, no crop, drop disabled; decoded image 8x6, no
transform, so the target size equals the original size. -/
theorem C7_no_crop_roundtrip_witness :
    getitem wDsSdxlNoCrop testDecode wRec wDraws0 0 = .ok wOutSdxlNoCrop ∧
    (wOutSdxlNoCrop.cond_original_size = some (8, 6) ∧
     wOutSdxlNoCrop.cond_crops_coords_top_left = some (0, 0) ∧
     wOutSdxlNoCrop.cond_target_size = pipeSize wOutSdxlNoCrop.image) := by
  refine ⟨rfl, ?_⟩
  have := C7_no_crop_roundtrip wDsSdxlNoCrop testDecode wRec wDraws0 0
    wOutSdxlNoCrop { w := 8, h := 6, mode := "RGB" } rfl rfl rfl
    (fun _ => ⟨le_refl 0, show (0 : Prob) < 1 by decide⟩) rfl rfl
  exact this

/-- C8: the three microconditioning vectors are zeroed by three separate
Bernoulli draws — in SDXL mode the crop-coords / original-size /
target-size vectors are governed by the distinct stream positions 0, 1
and 2 respectively (first conjunct), and every one of the eight
drop/keep patterns is realized by a suitable draw stream at probability
1/2 (second conjunct), which a single shared draw could never produce. -/
theorem C8_three_independent_draws :
    (∀ (ds : Dataset) (draws : Nat → Prob) (orig ctl : Nat × Nat)
        (img3 : PipeImage) (sz : Nat × Nat)
        (m : Option (Nat × Nat) × Option (Nat × Nat) × Option (Nat × Nat)),
      ds.sdxl = true → pipeSize img3 = some sz →
      microcondStep ds draws orig ctl img3 = .ok m →
      m = (some (if draws 0 < ds.microcond_drop_prob then (0, 0) else ctl),
           some (if draws 1 < ds.microcond_drop_prob then (0, 0) else orig),
           some (if draws 2 < ds.microcond_drop_prob then (0, 0) else sz))) ∧
    (∀ b0 b1 b2 : Bool,
      getitem wDsSdxlHalf testDecode wRec (c8draws b0 b1 b2) 0 =
        .ok (c8Out b0 b1 b2)) := by
  constructor
  · intro ds draws orig ctl img3 sz m hs hsz hm
    unfold microcondStep at hm
    rw [hs, if_pos rfl, hsz] at hm
    exact (Except.ok.inj hm).symm
  · intro b0 b1 b2
    cases b0 <;> cases b1 <;> cases b2 <;> rfl

/-- C8 witness: the first conjunct instantiated at the pattern
(drop, keep, drop) and the second at the pattern (drop, keep, keep). -/
theorem C8_three_independent_draws_witness :
    ((some (0, 0), some (8, 6), some (0, 0)) :
        Option (Nat × Nat) × Option (Nat × Nat) × Option (Nat × Nat)) =
      (some (if c8draws true false true 0 < wDsSdxlHalf.microcond_drop_prob
             then (0, 0) else (5, 7)),
       some (if c8draws true false true 1 < wDsSdxlHalf.microcond_drop_prob
             then (0, 0) else (8, 6)),
       some (if c8draws true false true 2 < wDsSdxlHalf.microcond_drop_prob
             then (0, 0) else (8, 6))) ∧
    getitem wDsSdxlHalf testDecode wRec (c8draws true false false) 0 =
      .ok (c8Out true false false) :=
  ⟨C8_three_independent_draws.1 wDsSdxlHalf (c8draws true false true) (8, 6)
      (5, 7) (.pil { w := 8, h := 6, mode := "RGB" }) (8, 6)
      (some (0, 0), some (8, 6), some (0, 0)) rfl rfl rfl,
   C8_three_independent_draws.2 true false false⟩

/-- C9: the builder enables dual-tokenizer (SDXL) mode iff the tokenizer
identifier string equals the one known SDXL identifier; every other
builder parameter is universally quantified here, so none of them
affects the decision. -/
theorem C9_sdxl_inferred_from_tokenizer (ext : ExternalLib)
    (remote local_ : Loc) (bs : Nat) (tok : String) (p q : Prob) (rs : Nat)
    (cs : String) (tf : Option (Img → PipeImage)) (ct : Option String)
    (z : Bool) (cfg : LoaderCfg)
    (h : build_streaming_image_caption_dataloader ext remote local_ bs tok
      p q rs cs tf ct z = .ok cfg) :
    (cfg.dataset.sdxl = true ↔
      tok = "stabilityai/stable-diffusion-xl-base-1.0") := by
  unfold build_streaming_image_caption_dataloader at h
  split at h
  · exact absurd h (by simp)
  · split at h
    · exact absurd h (by simp)
    · rename_i ds hinit
      obtain rfl := Except.ok.inj h
      unfold datasetInit at hinit
      split at hinit
      · obtain rfl := Except.ok.inj hinit
        show ((tok == "stabilityai/stable-diffusion-xl-base-1.0") = true ↔ _)
        exact beq_iff_eq
      · exact absurd hinit (by simp)

/-- C9 witness: building with the SDXL identifier yields a dataset with
`sdxl = true`. -/
theorem C9_sdxl_inferred_from_tokenizer_witness :
    build_streaming_image_caption_dataloader testExt (Loc.str "r")
        (Loc.str "l") 4 "stabilityai/stable-diffusion-xl-base-1.0" 0 0 256
        "first" none (some "square") true = .ok wCfg9 ∧
    (wCfg9.dataset.sdxl = true ↔
      "stabilityai/stable-diffusion-xl-base-1.0" =
        "stabilityai/stable-diffusion-xl-base-1.0") :=
  ⟨rfl, C9_sdxl_inferred_from_tokenizer testExt (Loc.str "r") (Loc.str "l") 4
    "stabilityai/stable-diffusion-xl-base-1.0" 0 0 256 "first" none
    (some "square") true wCfg9 rfl⟩

/-- C10: every successfully produced sample carries `drop_caption_mask`,
and its value is exactly 0.0 or 1.0 — under any configuration and any
draws the field is never absent. -/
theorem C10_drop_caption_mask_present (ds : Dataset)
    (decode : List Nat → Option Img) (rec : Record) (draws : Nat → Prob)
    (sel : Nat) (out : Sample)
    (h : getitem ds decode rec draws sel = .ok out) :
    out.drop_caption_mask = some 0 ∨ out.drop_caption_mask = some 1 := by
  obtain ⟨img0, micro, cm, -, -, hcap, rfl⟩ := getitem_ok h
  rcases captionStep_mask hcap with h0 | h1
  · left
    show some cm.2 = some 0
    rw [h0]
  · right
    show some cm.2 = some 1
    rw [h1]

/-- C10 witness: concrete run in the base configuration. -/
theorem C10_drop_caption_mask_present_witness :
    getitem wDsBase testDecode wRec wDraws0 0 = .ok wOutBase ∧
    (wOutBase.drop_caption_mask = some 0 ∨
     wOutBase.drop_caption_mask = some 1) :=
  ⟨rfl, C10_drop_caption_mask_present wDsBase testDecode wRec wDraws0 0
    wOutBase rfl⟩

end ImageCaption
